import Mathlib

/-!
Shallow embedding of `src/job_aware_switch.py`, the POX controller module of
an HTCondor job-aware SDN switch.  The packet handler is modelled as a pure
function from the switch state and a packet event to the new state, the list
of OpenFlow commands sent on the connection (in order), and an optional
uncaught Python exception.  External collaborators are parameters:
the metadata oracle (`request_network_classad`, a socket round trip) is a
function from an IP to the raw response string, and the external `classad`
parsing library is a function from the concatenated record text to an
attribute association list.
-/

/-- MAC addresses, modelled as strings (POX `EthAddr` rendered as text). -/
abbrev MAC := String

/-- IPv4 addresses, modelled as strings (POX `IPAddr` rendered as text,
matching the source's uses of `str(ipv4dst)`). -/
abbrev IP := String

/-- `HARD_TIMEOUT = 10` (line 30 of the source). -/
def HARD_TIMEOUT : Nat := 10

/-- `IDLE_TIMEOUT = 5` (line 31 of the source). -/
def IDLE_TIMEOUT : Nat := 5

/-- `core_switch_mac = "00-1e-68-04-1c-20"` (line 35 of the source). -/
def core_switch_mac : String := "00-1e-68-04-1c-20"

/-- POX `ethernet.LLDP_TYPE` ethertype constant. -/
def LLDP_TYPE : Nat := 0x88cc

/-- POX `of.OFPP_FLOOD` pseudo-port. -/
def OFPP_FLOOD : Nat := 0xfffb

/-- Python `s.split(sep)` for a one-character separator, on a char list. -/
def pySplitChar (sep : Char) : List Char → List (List Char)
  | [] => [[]]
  | c :: cs =>
      if c = sep then [] :: pySplitChar sep cs
      else
        match pySplitChar sep cs with
        | [] => [[c]]
        | l :: ls => (c :: l) :: ls

/-- Python `s.split(sep)` for a one-character separator (always non-empty,
`"".split(sep) == [""]`). -/
def pySplit (s : String) (sep : Char) : List String :=
  (pySplitChar sep s.data).map (fun l => String.mk l)

/-- Python `lines[0]`: the sentinel line of an oracle response
(`split` always returns a non-empty list, so the default is never used). -/
def line0 (lines : List String) : String :=
  lines.headD ""

/-- A parsed frame, the fields of POX's `event.parsed` that the module
reads: source and destination MAC, ethertype, the IPv4 header's source and
destination address when `packet.find('ipv4')` succeeds, and the TCP
destination port when `packet.find('tcp')` succeeds. -/
structure Packet where
  src : MAC
  dst : MAC
  ptype : Nat
  ipv4 : Option (IP × IP)
  tcpDst : Option Nat
  deriving DecidableEq, Repr

/-- A PacketIn event: `dpid_to_str` of the connection's datapath id, the
arrival port `event.port`, the buffer reference `event.ofp.buffer_id`, and
the parsed frame. -/
structure Event where
  dpid : String
  port : Nat
  buffer_id : Option Nat
  parsed : Packet
  deriving DecidableEq, Repr

/-- An OpenFlow action; the module only ever appends `ofp_action_output`. -/
inductive OFAction where
  | output (port : Nat)
  deriving DecidableEq, Repr

/-- An `ofp_match`.  All fields default to wildcard (`none`).  POX match
objects accept arbitrary attribute assignment, so the stray
`msg.match.idle_timeout` / `msg.match.hard_timeout` assignments of the
core-switch handler (source lines 261-262) are recorded as extra fields
here rather than on the flow-mod message. -/
structure OFMatch where
  dl_type : Option Nat := none
  dl_src : Option MAC := none
  dl_dst : Option MAC := none
  nw_src : Option IP := none
  nw_dst : Option IP := none
  tp_dst : Option Nat := none
  in_port : Option Nat := none
  idle_timeout : Option Nat := none
  hard_timeout : Option Nat := none
  deriving DecidableEq, Repr

/-- POX `ofp_match.from_packet(packet)` (no in_port argument): an exact
match built from every parsed field of the frame. -/
def OFMatch.from_packet (p : Packet) : OFMatch :=
  { dl_type := some p.ptype
    dl_src := some p.src
    dl_dst := some p.dst
    nw_src := p.ipv4.map Prod.fst
    nw_dst := p.ipv4.map Prod.snd
    tp_dst := p.tcpDst }

/-- An `ofp_flow_mod` message with POX's defaults: priority
`OFP_DEFAULT_PRIORITY = 0x8000`, both timeouts 0 (permanent), no actions. -/
structure FlowMod where
  priority : Nat := 0x8000
  match_ : OFMatch := {}
  idle_timeout : Nat := 0
  hard_timeout : Nat := 0
  actions : List OFAction := []
  buffer_id : Option Nat := none
  deriving DecidableEq, Repr

/-- An `ofp_packet_out` message. -/
structure PacketOut where
  buffer_id : Option Nat := none
  in_port : Option Nat := none
  actions : List OFAction := []
  deriving DecidableEq, Repr

/-- A command sent on the switch connection via `self.connection.send`. -/
inductive Command where
  | packetOut (po : PacketOut)
  | flowMod (fm : FlowMod)
  deriving DecidableEq, Repr

/-- The configuration values the module polls from `htcondor.param` on
every decision, kept as the raw comma-separated strings the source splits
at each use. -/
structure Config where
  BLOCKED_USERS : String
  BLOCKED_USERS_OUTSIDE : String
  WHITE_LIST_IP : String
  deriving DecidableEq, Repr

/-- Per-switch state: the `self.macToPort` dictionary, as an association
list with Python-dict (overwrite) update semantics. -/
structure SwitchState where
  macToPort : List (MAC × Nat)
  deriving DecidableEq, Repr

/-- Python dict lookup `d[k]` returning `none` when the key is absent. -/
def alookup {α β : Type} [DecidableEq α] : List (α × β) → α → Option β
  | [], _ => none
  | (k, v) :: rest, a => if k = a then some v else alookup rest a

/-- Python dict update `d[k] = v`: overwrite in place, append if new. -/
def insertMac : List (MAC × Nat) → MAC → Nat → List (MAC × Nat)
  | [], m, p => [(m, p)]
  | (k, v) :: rest, m, p =>
      if k = m then (m, p) :: rest else (k, v) :: insertMac rest m p

/-- Result of one `_handle_PacketIn` invocation: the switch state after the
event, the commands sent on the connection (in order), and `some msg` when
an uncaught exception escaped the handler after those sends. -/
structure HandlerResult where
  state : SwitchState
  commands : List Command
  error : Option String := none
  deriving DecidableEq, Repr

/-- `get_ip_addr` (source lines 272-280): the IPv4 source and destination
addresses, both `None` when the frame has no IPv4 layer. -/
def get_ip_addr (packet : Packet) : Option IP × Option IP :=
  match packet.ipv4 with
  | some sd => (some sd.1, some sd.2)
  | none => (none, none)

/-- `str_to_classad` (source lines 340-352): concatenate `lines[1:]` and
hand the text to the external `classad.ClassAd` parser, modelled by the
`parse` parameter returning the record's attribute association list. -/
def str_to_classad (parse : String → List (String × String))
    (lines : List String) : List (String × String) :=
  parse (String.join (lines.drop 1))

/-- The no-action packet-out acknowledging an LLDP frame (source lines
87-90): only the buffer reference and the arrival port, empty action
list. -/
def lldp_ack (ev : Event) : Command :=
  Command.packetOut { buffer_id := ev.buffer_id, in_port := some ev.port }

/-- The flood packet-out of `l2_learning` (source lines 287-291): output
to `OFPP_FLOOD`, carrying the event's buffer reference and arrival port. -/
def flood_packet_out (ev : Event) : Command :=
  Command.packetOut
    { buffer_id := ev.buffer_id
      in_port := some ev.port
      actions := [OFAction.output OFPP_FLOOD] }

/-- The loop-suppression flow-mod of `l2_learning` (source lines 300-305):
an exact match built from the full frame, idle timeout 5, hard timeout 10,
no actions, POX's default priority (the source sets none). -/
def loop_drop_rule (ev : Event) (packet : Packet) : Command :=
  Command.flowMod
    { match_ := OFMatch.from_packet packet
      idle_timeout := IDLE_TIMEOUT
      hard_timeout := HARD_TIMEOUT
      buffer_id := ev.buffer_id }

/-- The directed forwarding flow-mod of `l2_learning` (source lines
311-319): priority 10, match on `(dl_src, dl_dst)`, idle timeout 5, hard
timeout 10, one output action to the learned port. -/
def directed_rule (ev : Event) (packet : Packet) (port : Nat) : Command :=
  Command.flowMod
    { priority := 10
      match_ := { dl_src := some packet.src, dl_dst := some packet.dst }
      idle_timeout := IDLE_TIMEOUT
      hard_timeout := HARD_TIMEOUT
      actions := [OFAction.output port]
      buffer_id := ev.buffer_id }

/-- `l2_learning` (source lines 282-319).  The frame's source MAC has
already been learned by `_handle_PacketIn`; this is only the forwarding
decision for the destination MAC: unknown destination floods; a known
destination on the arrival port installs an exact-match suppression rule
(the loop drop); a known destination on a different port installs a
priority-10 directed rule with an output action. -/
def l2_learning (st : SwitchState) (ev : Event) (packet : Packet) :
    List Command :=
  match alookup st.macToPort packet.dst with
  | none => [flood_packet_out ev]
  | some port =>
      if port = ev.port then [loop_drop_rule ev packet]
      else [directed_rule ev packet port]

/-- `handle_packet_for_core_switch` (source lines 229-270), as the pair
(commands sent, uncaught exception); it never writes `macToPort`.  Note
that in the drop branch the source assigns the timeouts to `msg.match`
(lines 261-262), not to the flow-mod message, whose own timeout fields
keep their defaults. -/
def handle_packet_for_core_switch (oracle : IP → String)
    (parse : String → List (String × String))
    (st : SwitchState) (ev : Event) (packet : Packet) :
    List Command × Option String :=
  let ipv4addr := get_ip_addr packet
  match ipv4addr.1 with
  | some ipv4src =>
      let lines := pySplit (oracle ipv4src) '\n'
      if line0 lines = "FOUND" then
        match alookup (str_to_classad parse lines) "Owner" with
        | none => ([], some "KeyError: Owner")
        | some owner =>
            let tcpdstp := packet.tcpDst.getD 0
            if owner = "zzhang" ∧ tcpdstp = 80 then
              ([Command.flowMod
                { priority := 12
                  match_ :=
                    { dl_type := some 0x800
                      nw_src := some ipv4src
                      tp_dst := some 80
                      hard_timeout := some HARD_TIMEOUT
                      idle_timeout := some IDLE_TIMEOUT }
                  buffer_id := ev.buffer_id }], none)
            else
              (l2_learning st ev packet, none)
      else
        -- `elif lines[0] == "NOFOUND": pass` — control reaches the final
        -- `self.l2_learning(event, packet)` for every non-FOUND sentinel.
        (l2_learning st ev packet, none)
  | none => (l2_learning st ev packet, none)

/-- The priority-12 source-only suppression rule installed for a blocked
user (source lines 127-134): match on `nw_src` and `dl_src` only, idle
timeout 5, hard timeout 10, no actions. -/
def blocked_user_rule (ipv4src : IP) (srcMac : MAC) (buf : Option Nat) :
    FlowMod :=
  { priority := 12
    match_ := { nw_src := some ipv4src, dl_src := some srcMac }
    idle_timeout := IDLE_TIMEOUT
    hard_timeout := HARD_TIMEOUT
    buffer_id := buf }

/-- The priority-12 source-and-destination suppression rule installed by
the other edge drops (source lines 163-171, 183-191, 207-215): match on
`nw_src`, `dl_src` and `nw_dst`, idle timeout 5, hard timeout 10, no
actions. -/
def src_dst_drop_rule (ipv4src : IP) (srcMac : MAC) (ipv4dst : IP)
    (buf : Option Nat) : FlowMod :=
  { priority := 12
    match_ :=
      { nw_src := some ipv4src, dl_src := some srcMac, nw_dst := some ipv4dst }
    idle_timeout := IDLE_TIMEOUT
    hard_timeout := HARD_TIMEOUT
    buffer_id := buf }

/-- The edge-tier body of `_handle_PacketIn` (source lines 99-223): the
policy evaluation after MAC learning, the LLDP acknowledgment and the
core-switch dispatch, with every fall-through path ending in
`self.l2_learning(event, packet)`.  Returns the commands sent and an
uncaught `KeyError` when a FOUND classad lacks the `Owner` attribute. -/
def edge_policy (cfg : Config) (oracle : IP → String)
    (parse : String → List (String × String))
    (st : SwitchState) (ev : Event) (packet : Packet) :
    List Command × Option String :=
  let ipv4addr := get_ip_addr packet
  match ipv4addr.1 with
  | some ipv4src =>
      let lines := pySplit (oracle ipv4src) '\n'
      if line0 lines = "FOUND" then
        match alookup (str_to_classad parse lines) "Owner" with
        | none => ([], some "KeyError: Owner")
        | some owner =>
            let blocked_users := pySplit cfg.BLOCKED_USERS ','
            if owner ∈ blocked_users then
              ([Command.flowMod
                 (blocked_user_rule ipv4src packet.src ev.buffer_id)], none)
            else
              let blocked_outside := pySplit cfg.BLOCKED_USERS_OUTSIDE ','
              if owner ∈ blocked_outside then
                -- case 1 (source lines 148-192)
                match ipv4addr.2 with
                | some ipv4dst =>
                    let lines2 := pySplit (oracle ipv4dst) '\n'
                    if line0 lines2 = "FOUND" then
                      match alookup (str_to_classad parse lines2) "Owner" with
                      | none => ([], some "KeyError: Owner")
                      | some owner_dst =>
                          if owner ≠ owner_dst then
                            ([Command.flowMod
                               (src_dst_drop_rule ipv4src packet.src ipv4dst
                                 ev.buffer_id)], none)
                          else
                            (l2_learning st ev packet, none)
                    else
                      let white_list_ip := pySplit cfg.WHITE_LIST_IP ','
                      if ipv4dst ∉ white_list_ip then
                        ([Command.flowMod
                           (src_dst_drop_rule ipv4src packet.src ipv4dst
                             ev.buffer_id)], none)
                      else
                        (l2_learning st ev packet, none)
                | none => (l2_learning st ev packet, none)
              else
                -- case 2 (source lines 194-216)
                match ipv4addr.2 with
                | some ipv4dst =>
                    let lines2 := pySplit (oracle ipv4dst) '\n'
                    if line0 lines2 = "FOUND" then
                      match alookup (str_to_classad parse lines2) "Owner" with
                      | none => ([], some "KeyError: Owner")
                      | some owner_dst =>
                          if owner ≠ owner_dst then
                            ([Command.flowMod
                               (src_dst_drop_rule ipv4src packet.src ipv4dst
                                 ev.buffer_id)], none)
                          else
                            (l2_learning st ev packet, none)
                    else
                      (l2_learning st ev packet, none)
                | none => (l2_learning st ev packet, none)
      else
        -- `elif lines[0] == "NOFOUND": pass` — any non-FOUND sentinel
        -- reaches `self.l2_learning(event, packet)` on line 223.
        (l2_learning st ev packet, none)
  | none => (l2_learning st ev packet, none)

/-- `_handle_PacketIn` (source lines 76-223).  In order: learn the source
MAC unconditionally (line 81); send a no-action packet-out for an LLDP
frame (lines 85-90, note the source does NOT return there, so processing
continues); dispatch to the core-switch handler when the connection's
datapath id renders to `core_switch_mac` (lines 93-97); otherwise run the
edge-tier policy, which falls through to `l2_learning`.  The handler never
writes `macToPort` after line 81. -/
def handle_PacketIn (cfg : Config) (oracle : IP → String)
    (parse : String → List (String × String))
    (st0 : SwitchState) (ev : Event) : HandlerResult :=
  let packet := ev.parsed
  let st : SwitchState :=
    { macToPort := insertMac st0.macToPort packet.src ev.port }
  let lldpCmds : List Command :=
    if packet.ptype = LLDP_TYPE then [lldp_ack ev] else []
  let body :=
    if ev.dpid = core_switch_mac then
      handle_packet_for_core_switch oracle parse st ev packet
    else
      edge_policy cfg oracle parse st ev packet
  { state := st, commands := lldpCmds ++ body.1, error := body.2 }

/-! ### Helper lemmas about the MAC-to-port dictionary -/

theorem alookup_insertMac_self (t : List (MAC × Nat)) (m : MAC) (p : Nat) :
    alookup (insertMac t m p) m = some p := by
  induction t with
  | nil => simp [insertMac, alookup]
  | cons kv rest ih =>
      obtain ⟨k, v⟩ := kv
      by_cases h : k = m
      · simp [insertMac, h, alookup]
      · simp [insertMac, h, alookup, ih]

theorem insertMac_idem (t : List (MAC × Nat)) (m : MAC) (p : Nat) :
    insertMac (insertMac t m p) m p = insertMac t m p := by
  induction t with
  | nil => simp [insertMac]
  | cons kv rest ih =>
      obtain ⟨k, v⟩ := kv
      by_cases h : k = m
      · simp [insertMac, h]
      · simp [insertMac, h, ih]

/-! ### Concrete test fixtures -/

/-- An empty configuration (all lists unset). -/
def cfg0 : Config := ⟨"", "", ""⟩

/-- An oracle that resolves nothing. -/
def oracle0 : IP → String := fun _ => "NOFOUND"

/-- A classad parser that yields an empty attribute record; the external
`classad` library behaves this way on the record text `[]`. -/
def parse0 : String → List (String × String) := fun _ => []

/-- An empty MAC-to-port table. -/
def st0 : SwitchState := ⟨[]⟩

/-! ### Claims -/

/-- Claim C8: for every packet event, the MAC-to-port entry for the frame's
source MAC is set to the arrival port before any policy evaluation or
forwarding decision, and the learning update is never skipped: the
resulting table always maps the source MAC to the arrival port, and the
whole handler result is unchanged when the update is already applied to
the incoming state — i.e. every decision is taken against the updated
table, independent of policy outcome and switch role. -/
theorem mac_learning_precedes_decision (cfg : Config) (oracle : IP → String)
    (parse : String → List (String × String)) (st : SwitchState) (ev : Event) :
    alookup (handle_PacketIn cfg oracle parse st ev).state.macToPort
        ev.parsed.src = some ev.port
    ∧ handle_PacketIn cfg oracle parse st ev
        = handle_PacketIn cfg oracle parse
            ⟨insertMac st.macToPort ev.parsed.src ev.port⟩ ev := by
  constructor
  · simp [handle_PacketIn, alookup_insertMac_self]
  · simp [handle_PacketIn, insertMac_idem]

/-- Claim C7: in the L2 forwarding decision (the source MAC already
learned), a flood packet-out is emitted iff the destination MAC is absent
from the table; the loop-suppression flow-mod (exact match built from the
full frame) is emitted iff the destination's learned port equals the
arrival port; and when the learned port differs, the output is exactly the
priority-10 directed rule matching `(dl_src, dl_dst)` with an output
action to the learned port. -/
theorem l2_learning_decision_spec (st : SwitchState) (ev : Event) :
    ((flood_packet_out ev ∈ l2_learning st ev ev.parsed) ↔
        alookup st.macToPort ev.parsed.dst = none)
    ∧ ((loop_drop_rule ev ev.parsed ∈ l2_learning st ev ev.parsed) ↔
        alookup st.macToPort ev.parsed.dst = some ev.port)
    ∧ (∀ p, alookup st.macToPort ev.parsed.dst = some p → p ≠ ev.port →
        l2_learning st ev ev.parsed = [directed_rule ev ev.parsed p]) := by
  refine ⟨?_, ?_, ?_⟩
  · rcases h : alookup st.macToPort ev.parsed.dst with _ | p
    · simp [l2_learning, h]
    · by_cases hp : p = ev.port <;>
        simp [l2_learning, h, hp, flood_packet_out, loop_drop_rule,
          directed_rule]
  · rcases h : alookup st.macToPort ev.parsed.dst with _ | p
    · simp [l2_learning, h, flood_packet_out, loop_drop_rule]
    · by_cases hp : p = ev.port <;>
        simp [l2_learning, h, hp, loop_drop_rule, directed_rule]
  · intro p h hp
    simp [l2_learning, h, hp]

/-- Witness for C7 at a concrete table and event: destination known on
port 3, arrival port 1, so the directed priority-10 rule is emitted. -/
def evC7 : Event :=
  { dpid := "00-00-00-00-00-02", port := 1, buffer_id := some 9,
    parsed := { src := "aa:aa", dst := "bb:bb", ptype := 0x800,
                ipv4 := none, tcpDst := none } }

theorem l2_learning_decision_spec_witness :
    l2_learning ⟨[("bb:bb", 3)]⟩ evC7 evC7.parsed
      = [directed_rule evC7 evC7.parsed 3] :=
  (l2_learning_decision_spec ⟨[("bb:bb", 3)]⟩ evC7).2.2 3 (by decide)
    (by decide)

/-- Claim C10: an oracle response whose first line is `FOUND` but whose
record text parses (by the external classad library) to a record without
an `Owner` attribute makes the handler raise an uncaught `KeyError` at the
unguarded `network_classad["Owner"]` lookup, with no switch command
emitted for the event.  Here the oracle answers `FOUND` followed by the
empty record `[]`, which the classad library parses to an empty mapping. -/
def evC10 : Event :=
  { dpid := "00-00-00-00-00-01", port := 1, buffer_id := some 42,
    parsed := { src := "aa:aa", dst := "bb:bb", ptype := 0x800,
                ipv4 := some ("10.0.0.5", "10.0.0.9"), tcpDst := none } }

/-- The oracle answer exercising the missing-`Owner` branch. -/
def oracleC10 : IP → String := fun _ => "FOUND\n[]"

theorem missing_owner_attribute_reachable :
    (handle_PacketIn cfg0 oracleC10 parse0 st0 evC10).error
        = some "KeyError: Owner"
    ∧ (handle_PacketIn cfg0 oracleC10 parse0 st0 evC10).commands = [] := by
  decide

/-- Claim C1 (refuted by the core tier): the flow event where the core
switch drops `zzhang`'s HTTP traffic. -/
def evC1 : Event :=
  { dpid := core_switch_mac, port := 2, buffer_id := some 7,
    parsed := { src := "cc:cc", dst := "dd:dd", ptype := 0x800,
                ipv4 := some ("10.0.0.6", "8.8.8.8"), tcpDst := some 80 } }

/-- Oracle resolving every IP to owner `zzhang`. -/
def oracleC1 : IP → String := fun _ => "FOUND\n[Owner=zzhang]"

/-- The external classad library on the record text `[Owner=zzhang]`. -/
def parseC1 : String → List (String × String) :=
  fun s => if s = "[Owner=zzhang]" then [("Owner", "zzhang")] else []

/-- Claim C1: refuted.  The core-tier policy drop (owner `zzhang`,
destination TCP port 80) emits a flow-mod whose own `idle_timeout` and
`hard_timeout` fields are still 0 (a permanent rule): the source assigns
the timeout constants to the `ofp_match` object (`msg.match.hard_timeout`,
`msg.match.idle_timeout`, lines 261-262) instead of the message, so this
policy Drop does not carry idle timeout 5 / hard timeout 10 as the claim
states for every Drop. -/
theorem core_tier_drop_leaves_flowmod_timeouts_unset :
    (handle_PacketIn cfg0 oracleC1 parseC1 st0 evC1).commands =
      [Command.flowMod
        { priority := 12
          match_ :=
            { dl_type := some 0x800, nw_src := some "10.0.0.6",
              tp_dst := some 80, hard_timeout := some HARD_TIMEOUT,
              idle_timeout := some IDLE_TIMEOUT }
          idle_timeout := 0
          hard_timeout := 0
          buffer_id := some 7 }] := by
  decide

/-- Claim C3 (refuted): an LLDP frame at an edge switch, destination MAC
unknown. -/
def evC3 : Event :=
  { dpid := "00-00-00-00-00-02", port := 4, buffer_id := some 5,
    parsed := { src := "11:11", dst := "22:22", ptype := LLDP_TYPE,
                ipv4 := none, tcpDst := none } }

/-- Claim C3: refuted.  The LLDP branch of `_handle_PacketIn` sends the
no-action acknowledgment but does not return (source lines 85-90), so
processing continues and the event also reaches `l2_learning`: for an
LLDP frame with unknown destination the handler emits TWO commands, the
acknowledgment and then a flood packet-out, contradicting "exactly one
command and no flood". -/
theorem lldp_frame_also_floods :
    (handle_PacketIn cfg0 oracle0 parse0 st0 evC3).commands =
      [lldp_ack evC3, flood_packet_out evC3] := by
  decide

/-- Claim C2 (counterexample fixtures): a core-switch flow whose source
owner `bob` is in `BLOCKED_USERS`. -/
def cfgC2 : Config := ⟨"bob,carol", "", ""⟩

/-- Oracle for the C2 counterexample: resolves `10.0.0.5` to owner `bob`. -/
def oracleC2 : IP → String :=
  fun ip => if ip = "10.0.0.5" then "FOUND\n[Owner=bob]" else "NOFOUND"

/-- The external classad library on the record text `[Owner=bob]`. -/
def parseC2 : String → List (String × String) :=
  fun s => if s = "[Owner=bob]" then [("Owner", "bob")] else []

/-- A packet event arriving at the core switch from blocked owner `bob`. -/
def evC2core : Event :=
  { dpid := core_switch_mac, port := 1, buffer_id := some 3,
    parsed := { src := "aa:aa", dst := "bb:bb", ptype := 0x800,
                ipv4 := some ("10.0.0.5", "10.0.0.9"), tcpDst := some 22 } }

/-- Claim C2 is false as stated for the core switch: owner `bob` is in
`BLOCKED_USERS` and resolves for the source IP, yet the core-switch
handler (which only implements the hardcoded `zzhang`/port-80 rule and
never reads `BLOCKED_USERS`) does not drop — the event falls through to
L2 learning and emits a flood packet-out, not a suppression flow-mod. -/
theorem blocked_user_core_switch_not_dropped :
    ("bob" ∈ pySplit cfgC2.BLOCKED_USERS ',')
    ∧ line0 (pySplit (oracleC2 "10.0.0.5") '\n') = "FOUND"
    ∧ alookup (str_to_classad parseC2 (pySplit (oracleC2 "10.0.0.5") '\n'))
        "Owner" = some "bob"
    ∧ (handle_PacketIn cfgC2 oracleC2 parseC2 st0 evC2core).commands
        = [flood_packet_out evC2core]
    ∧ (handle_PacketIn cfgC2 oracleC2 parseC2 st0 evC2core).error = none := by
  decide

/-- Claim C2, amended to edge switches: for every EDGE-switch flow whose
source IP resolves to an owner in `BLOCKED_USERS`, the decision is Drop
(the source-only suppression flow-mod is installed) regardless of the
destination of the flow; the core switch does not consult
`BLOCKED_USERS`. -/
theorem blocked_user_edge_drop (cfg : Config) (oracle : IP → String)
    (parse : String → List (String × String)) (st : SwitchState) (ev : Event)
    (s d : IP) (o : String)
    (hdpid : ev.dpid ≠ core_switch_mac)
    (hip : ev.parsed.ipv4 = some (s, d))
    (hF : line0 (pySplit (oracle s) '\n') = "FOUND")
    (hO : alookup (str_to_classad parse (pySplit (oracle s) '\n')) "Owner"
        = some o)
    (hB : o ∈ pySplit cfg.BLOCKED_USERS ',') :
    (handle_PacketIn cfg oracle parse st ev).commands =
      (if ev.parsed.ptype = LLDP_TYPE then [lldp_ack ev] else [])
        ++ [Command.flowMod (blocked_user_rule s ev.parsed.src ev.buffer_id)]
    ∧ (handle_PacketIn cfg oracle parse st ev).error = none := by
  constructor <;>
    simp [handle_PacketIn, edge_policy, get_ip_addr, hdpid, hip, hF, hO, hB]

/-- Fixtures for the C2 witness: the same blocked owner arriving at an
edge switch. -/
def evC2edge : Event :=
  { dpid := "00-00-00-00-00-02", port := 1, buffer_id := some 3,
    parsed := { src := "aa:aa", dst := "bb:bb", ptype := 0x800,
                ipv4 := some ("10.0.0.5", "10.0.0.9"), tcpDst := some 22 } }

theorem blocked_user_edge_drop_witness :
    (handle_PacketIn cfgC2 oracleC2 parseC2 st0 evC2edge).commands =
      (if evC2edge.parsed.ptype = LLDP_TYPE then [lldp_ack evC2edge] else [])
        ++ [Command.flowMod
            (blocked_user_rule "10.0.0.5" evC2edge.parsed.src
              evC2edge.buffer_id)]
    ∧ (handle_PacketIn cfgC2 oracleC2 parseC2 st0 evC2edge).error = none :=
  blocked_user_edge_drop cfgC2 oracleC2 parseC2 st0 evC2edge
    "10.0.0.5" "10.0.0.9" "bob" (by decide) (by decide) (by decide)
    (by decide) (by decide)

/-- Claim C6: for every edge-switch packet event whose source IP resolves
to an owner in `BLOCKED_USERS`, the emitted policy command is a flow-mod
with priority 12, whose match carries only the source fields
(`nw_src` = source IP, `dl_src` = source MAC, every destination field a
wildcard), idle timeout 5, hard timeout 10, and an empty action list. -/
theorem blocked_user_drop_rule_shape (cfg : Config) (oracle : IP → String)
    (parse : String → List (String × String)) (st : SwitchState) (ev : Event)
    (s d : IP) (o : String)
    (hdpid : ev.dpid ≠ core_switch_mac)
    (hip : ev.parsed.ipv4 = some (s, d))
    (hF : line0 (pySplit (oracle s) '\n') = "FOUND")
    (hO : alookup (str_to_classad parse (pySplit (oracle s) '\n')) "Owner"
        = some o)
    (hB : o ∈ pySplit cfg.BLOCKED_USERS ',') :
    (handle_PacketIn cfg oracle parse st ev).commands =
      (if ev.parsed.ptype = LLDP_TYPE then [lldp_ack ev] else [])
        ++ [Command.flowMod
          { priority := 12
            match_ :=
              { dl_type := none, dl_src := some ev.parsed.src, dl_dst := none
                nw_src := some s, nw_dst := none, tp_dst := none
                in_port := none, idle_timeout := none, hard_timeout := none }
            idle_timeout := 5
            hard_timeout := 10
            actions := []
            buffer_id := ev.buffer_id }] := by
  simp [handle_PacketIn, edge_policy, get_ip_addr, hdpid, hip, hF, hO, hB,
    blocked_user_rule, IDLE_TIMEOUT, HARD_TIMEOUT]

/-- Fixtures for the C6 witness: spec Example B, owner `bob` with
`BLOCKED_USERS = {"bob","carol"}`. -/
def evC6 : Event :=
  { dpid := "00-00-00-00-00-03", port := 2, buffer_id := some 11,
    parsed := { src := "66:66", dst := "77:77", ptype := 0x800,
                ipv4 := some ("10.0.0.5", "10.0.0.9"), tcpDst := none } }

theorem blocked_user_drop_rule_shape_witness :
    (handle_PacketIn cfgC2 oracleC2 parseC2 st0 evC6).commands =
      (if evC6.parsed.ptype = LLDP_TYPE then [lldp_ack evC6] else [])
        ++ [Command.flowMod
          { priority := 12
            match_ :=
              { dl_type := none, dl_src := some evC6.parsed.src,
                dl_dst := none, nw_src := some "10.0.0.5", nw_dst := none,
                tp_dst := none, in_port := none, idle_timeout := none,
                hard_timeout := none }
            idle_timeout := 5
            hard_timeout := 10
            actions := []
            buffer_id := evC6.buffer_id }] :=
  blocked_user_drop_rule_shape cfgC2 oracleC2 parseC2 st0 evC6
    "10.0.0.5" "10.0.0.9" "bob" (by decide) (by decide) (by decide)
    (by decide) (by decide)

/-- Claim C4: for an edge-switch flow whose source owner is in
`BLOCKED_USERS_OUTSIDE` (and not in `BLOCKED_USERS`) and whose destination
IP does not resolve at the oracle (`NOFOUND`): if the destination IP is
not in `WHITE_LIST_IP` the decision is Drop with the suppression rule
matching source and destination (`nw_src`, `dl_src`, `nw_dst`); if it is
whitelisted the decision falls through to L2 learning. -/
theorem blocked_outside_external_dst_policy (cfg : Config)
    (oracle : IP → String) (parse : String → List (String × String))
    (st : SwitchState) (ev : Event) (s d : IP) (o : String)
    (hdpid : ev.dpid ≠ core_switch_mac)
    (hip : ev.parsed.ipv4 = some (s, d))
    (hF : line0 (pySplit (oracle s) '\n') = "FOUND")
    (hO : alookup (str_to_classad parse (pySplit (oracle s) '\n')) "Owner"
        = some o)
    (hnB : o ∉ pySplit cfg.BLOCKED_USERS ',')
    (hBO : o ∈ pySplit cfg.BLOCKED_USERS_OUTSIDE ',')
    (hNF : line0 (pySplit (oracle d) '\n') = "NOFOUND") :
    (handle_PacketIn cfg oracle parse st ev).commands =
      (if ev.parsed.ptype = LLDP_TYPE then [lldp_ack ev] else [])
        ++ (if d ∈ pySplit cfg.WHITE_LIST_IP ',' then
              l2_learning ⟨insertMac st.macToPort ev.parsed.src ev.port⟩ ev
                ev.parsed
            else
              [Command.flowMod
                (src_dst_drop_rule s ev.parsed.src d ev.buffer_id)])
    ∧ (handle_PacketIn cfg oracle parse st ev).error = none := by
  have hne : ("NOFOUND" : String) ≠ "FOUND" := by decide
  by_cases hw : d ∈ pySplit cfg.WHITE_LIST_IP ',' <;>
    constructor <;>
    simp [handle_PacketIn, edge_policy, get_ip_addr, hdpid, hip, hF, hO,
      hnB, hBO, hNF, hne, hw]

/-- Fixtures for the C4 witness: owner `dave` in `BLOCKED_USERS_OUTSIDE`,
destination unresolved and not whitelisted. -/
def cfgC4 : Config := ⟨"bob,carol", "dave", "203.0.113.4"⟩

/-- Oracle for the C4 witness: resolves only the source `10.0.0.7`. -/
def oracleC4 : IP → String :=
  fun ip => if ip = "10.0.0.7" then "FOUND\n[Owner=dave]" else "NOFOUND"

/-- The external classad library on the record text `[Owner=dave]`. -/
def parseC4 : String → List (String × String) :=
  fun s => if s = "[Owner=dave]" then [("Owner", "dave")] else []

/-- An edge packet event from `dave` to an external, non-whitelisted IP. -/
def evC4 : Event :=
  { dpid := "00-00-00-00-00-04", port := 6, buffer_id := some 13,
    parsed := { src := "44:44", dst := "55:55", ptype := 0x800,
                ipv4 := some ("10.0.0.7", "198.51.100.9"), tcpDst := none } }

theorem blocked_outside_external_dst_policy_witness :
    (handle_PacketIn cfgC4 oracleC4 parseC4 st0 evC4).commands =
      (if evC4.parsed.ptype = LLDP_TYPE then [lldp_ack evC4] else [])
        ++ (if "198.51.100.9" ∈ pySplit cfgC4.WHITE_LIST_IP ',' then
              l2_learning ⟨insertMac st0.macToPort evC4.parsed.src evC4.port⟩
                evC4 evC4.parsed
            else
              [Command.flowMod
                (src_dst_drop_rule "10.0.0.7" evC4.parsed.src "198.51.100.9"
                  evC4.buffer_id)])
    ∧ (handle_PacketIn cfgC4 oracleC4 parseC4 st0 evC4).error = none :=
  blocked_outside_external_dst_policy cfgC4 oracleC4 parseC4 st0 evC4
    "10.0.0.7" "198.51.100.9" "dave" (by decide) (by decide) (by decide)
    (by decide) (by decide) (by decide) (by decide)

/-- Claim C5: for an edge-switch flow whose source owner resolves but is
unrestricted (in neither blocked list), the decision is Drop exactly when
the destination IP resolves at the oracle to a different owner; when the
destination resolves to the same owner, and when the destination does not
resolve, the event defers to L2 learning. -/
theorem unrestricted_owner_policy (cfg : Config) (oracle : IP → String)
    (parse : String → List (String × String)) (st : SwitchState) (ev : Event)
    (s d : IP) (o : String)
    (hdpid : ev.dpid ≠ core_switch_mac)
    (hip : ev.parsed.ipv4 = some (s, d))
    (hF : line0 (pySplit (oracle s) '\n') = "FOUND")
    (hO : alookup (str_to_classad parse (pySplit (oracle s) '\n')) "Owner"
        = some o)
    (hnB : o ∉ pySplit cfg.BLOCKED_USERS ',')
    (hnBO : o ∉ pySplit cfg.BLOCKED_USERS_OUTSIDE ',') :
    (∀ od, line0 (pySplit (oracle d) '\n') = "FOUND" →
        alookup (str_to_classad parse (pySplit (oracle d) '\n')) "Owner"
          = some od →
        od ≠ o →
        (handle_PacketIn cfg oracle parse st ev).commands =
          (if ev.parsed.ptype = LLDP_TYPE then [lldp_ack ev] else [])
            ++ [Command.flowMod
                (src_dst_drop_rule s ev.parsed.src d ev.buffer_id)]
          ∧ (handle_PacketIn cfg oracle parse st ev).error = none)
    ∧ (∀ od, line0 (pySplit (oracle d) '\n') = "FOUND" →
        alookup (str_to_classad parse (pySplit (oracle d) '\n')) "Owner"
          = some od →
        od = o →
        (handle_PacketIn cfg oracle parse st ev).commands =
          (if ev.parsed.ptype = LLDP_TYPE then [lldp_ack ev] else [])
            ++ l2_learning ⟨insertMac st.macToPort ev.parsed.src ev.port⟩ ev
                ev.parsed
          ∧ (handle_PacketIn cfg oracle parse st ev).error = none)
    ∧ (line0 (pySplit (oracle d) '\n') ≠ "FOUND" →
        (handle_PacketIn cfg oracle parse st ev).commands =
          (if ev.parsed.ptype = LLDP_TYPE then [lldp_ack ev] else [])
            ++ l2_learning ⟨insertMac st.macToPort ev.parsed.src ev.port⟩ ev
                ev.parsed
          ∧ (handle_PacketIn cfg oracle parse st ev).error = none) := by
  refine ⟨?_, ?_, ?_⟩
  · intro od hFd hOd hod
    have hod' : o ≠ od := fun h => hod h.symm
    constructor <;>
      simp [handle_PacketIn, edge_policy, get_ip_addr, hdpid, hip, hF, hO,
        hnB, hnBO, hFd, hOd, hod']
  · intro od hFd hOd hod
    subst hod
    constructor <;>
      simp [handle_PacketIn, edge_policy, get_ip_addr, hdpid, hip, hF, hO,
        hnB, hnBO, hFd, hOd]
  · intro hFd
    constructor <;>
      simp [handle_PacketIn, edge_policy, get_ip_addr, hdpid, hip, hF, hO,
        hnB, hnBO, hFd]

/-- Fixtures for the C5 witness: unrestricted owner `alice` sending to a
flow owned by `bob` — the cross-owner drop. -/
def cfgC5 : Config := ⟨"carol", "dave", ""⟩

/-- Oracle for the C5 witness: `10.0.0.2` is `alice`'s, `10.0.0.3` is
`bob`'s. -/
def oracleC5 : IP → String :=
  fun ip =>
    if ip = "10.0.0.2" then "FOUND\n[Owner=alice]"
    else if ip = "10.0.0.3" then "FOUND\n[Owner=bob]"
    else "NOFOUND"

/-- The external classad library on the two record texts of `oracleC5`. -/
def parseC5 : String → List (String × String) :=
  fun s =>
    if s = "[Owner=alice]" then [("Owner", "alice")]
    else if s = "[Owner=bob]" then [("Owner", "bob")]
    else []

/-- An edge packet event from `alice`'s job to `bob`'s job. -/
def evC5 : Event :=
  { dpid := "00-00-00-00-00-05", port := 8, buffer_id := some 17,
    parsed := { src := "88:88", dst := "99:99", ptype := 0x800,
                ipv4 := some ("10.0.0.2", "10.0.0.3"), tcpDst := none } }

theorem unrestricted_owner_policy_witness :
    (handle_PacketIn cfgC5 oracleC5 parseC5 st0 evC5).commands =
      (if evC5.parsed.ptype = LLDP_TYPE then [lldp_ack evC5] else [])
        ++ [Command.flowMod
            (src_dst_drop_rule "10.0.0.2" evC5.parsed.src "10.0.0.3"
              evC5.buffer_id)]
    ∧ (handle_PacketIn cfgC5 oracleC5 parseC5 st0 evC5).error = none :=
  (unrestricted_owner_policy cfgC5 oracleC5 parseC5 st0 evC5
      "10.0.0.2" "10.0.0.3" "alice" (by decide) (by decide) (by decide)
      (by decide) (by decide) (by decide)).1
    "bob" (by decide) (by decide) (by decide)

/-- Replacing every oracle answer whose first line is not `FOUND` by the
literal `NOFOUND` answer does not change the core-switch handler. -/
theorem handle_packet_for_core_switch_oracle (oracle oracle2 : IP → String)
    (parse : String → List (String × String)) (st : SwitchState) (ev : Event)
    (packet : Packet)
    (h : ∀ ip, if line0 (pySplit (oracle ip) '\n') = "FOUND"
          then oracle2 ip = oracle ip else oracle2 ip = "NOFOUND") :
    handle_packet_for_core_switch oracle parse st ev packet
      = handle_packet_for_core_switch oracle2 parse st ev packet := by
  have hnf : line0 (pySplit "NOFOUND" '\n') = "NOFOUND" := by decide
  have hne : ("NOFOUND" : String) ≠ "FOUND" := by decide
  cases hpk : packet.ipv4 with
  | none => simp [handle_packet_for_core_switch, get_ip_addr, hpk]
  | some sd =>
      obtain ⟨s, d⟩ := sd
      have hs := h s
      by_cases hFs : line0 (pySplit (oracle s) '\n') = "FOUND"
      · rw [if_pos hFs] at hs
        simp [handle_packet_for_core_switch, get_ip_addr, hpk, hs]
      · rw [if_neg hFs] at hs
        simp [handle_packet_for_core_switch, get_ip_addr, hpk, hs, hFs,
          hnf, hne]

/-- Replacing every oracle answer whose first line is not `FOUND` by the
literal `NOFOUND` answer does not change the edge-tier policy. -/
theorem edge_policy_oracle (cfg : Config) (oracle oracle2 : IP → String)
    (parse : String → List (String × String)) (st : SwitchState) (ev : Event)
    (packet : Packet)
    (h : ∀ ip, if line0 (pySplit (oracle ip) '\n') = "FOUND"
          then oracle2 ip = oracle ip else oracle2 ip = "NOFOUND") :
    edge_policy cfg oracle parse st ev packet
      = edge_policy cfg oracle2 parse st ev packet := by
  have hnf : line0 (pySplit "NOFOUND" '\n') = "NOFOUND" := by decide
  have hne : ("NOFOUND" : String) ≠ "FOUND" := by decide
  cases hpk : packet.ipv4 with
  | none => simp [edge_policy, get_ip_addr, hpk]
  | some sd =>
      obtain ⟨s, d⟩ := sd
      have hs := h s
      have hd := h d
      by_cases hFs : line0 (pySplit (oracle s) '\n') = "FOUND"
      · rw [if_pos hFs] at hs
        by_cases hFd : line0 (pySplit (oracle d) '\n') = "FOUND"
        · rw [if_pos hFd] at hd
          simp [edge_policy, get_ip_addr, hpk, hs, hd]
        · rw [if_neg hFd] at hd
          simp [edge_policy, get_ip_addr, hpk, hs, hd, hFd, hnf, hne]
      · rw [if_neg hFs] at hs
        simp [edge_policy, get_ip_addr, hpk, hs, hFs, hnf, hne]

/-- Claim C9: for every oracle response whose first line is not exactly
`FOUND` — including malformed sentinels that are not `NOFOUND` either —
the handler takes exactly the branch it takes for `NOFOUND`: the whole
handler result (state, commands, error) is unchanged when every non-FOUND
answer is replaced by the literal `NOFOUND` answer, so a non-FOUND source
answer defers to L2 learning, a non-FOUND destination answer is treated as
an unresolved destination, and the sentinel itself never raises or
drops. -/
theorem non_found_sentinel_behaves_as_nofound (cfg : Config)
    (oracle oracle2 : IP → String) (parse : String → List (String × String))
    (st : SwitchState) (ev : Event)
    (h : ∀ ip, if line0 (pySplit (oracle ip) '\n') = "FOUND"
          then oracle2 ip = oracle ip else oracle2 ip = "NOFOUND") :
    handle_PacketIn cfg oracle parse st ev
      = handle_PacketIn cfg oracle2 parse st ev := by
  have hc := handle_packet_for_core_switch_oracle oracle oracle2 parse
    ⟨insertMac st.macToPort ev.parsed.src ev.port⟩ ev ev.parsed h
  have he := edge_policy_oracle cfg oracle oracle2 parse
    ⟨insertMac st.macToPort ev.parsed.src ev.port⟩ ev ev.parsed h
  simp [handle_PacketIn, hc, he]

/-- An oracle answering with a malformed sentinel on every request. -/
def oracleC9a : IP → String := fun _ => "GARBAGE"

/-- The same oracle with the malformed answer replaced by `NOFOUND`. -/
def oracleC9b : IP → String := fun _ => "NOFOUND"

/-- An ordinary edge packet event used for the C9 witness. -/
def evC9 : Event :=
  { dpid := "00-00-00-00-00-06", port := 5, buffer_id := some 21,
    parsed := { src := "ab:ab", dst := "cd:cd", ptype := 0x800,
                ipv4 := some ("10.0.0.8", "10.0.0.9"), tcpDst := none } }

theorem non_found_sentinel_behaves_as_nofound_witness :
    handle_PacketIn cfg0 oracleC9a parse0 st0 evC9
      = handle_PacketIn cfg0 oracleC9b parse0 st0 evC9 :=
  non_found_sentinel_behaves_as_nofound cfg0 oracleC9a oracleC9b parse0 st0
    evC9
    (fun ip =>
      show if line0 (pySplit "GARBAGE" '\n') = "FOUND"
          then ("NOFOUND" : String) = "GARBAGE"
          else ("NOFOUND" : String) = "NOFOUND" from by decide)
